import Mathlib

/-!
Shallow embedding of the two MCP tool-servers of this repository:

* `src/screenshoot.ts` (first part): a screenshot server with a single
  `get_screenshot` tool driving a headless browser.
* `src/employee.ts`: an employee-table server built on `McpServer`, whose six
  tools are validated against zod schemas by the protocol layer before the
  handlers run.
* `src/screenshoot.ts` (second part): a raw `Server` variant of the same
  employee-table server, whose `CallToolRequestSchema` handler dispatches on the
  tool name itself and performs no schema validation.

Modelling conventions:

* The SQLite table `employees` is a list of rows plus the next AUTOINCREMENT
  id (`DB`).  Row order is rowid order; `stmt.all` without ORDER BY returns
  rows in that order.
* JavaScript / SQLite REAL numbers are modelled as `Rat`.  Number-to-string
  rendering (`ratNumStr`, `toFixed2`, `mathRound`) produces the exact decimal
  expansion, which agrees with JavaScript printing on the decimal literals the
  servers handle.
* `hire_date` is stored as the TEXT string that was inserted; SQLite TEXT
  comparison is byte order, modelled by `sqlTextLe` on characters.
* The SQLite `DATE(x)` function is modelled by `sqliteDate`: it returns the
  string unchanged when it is a calendar-valid `YYYY-MM-DD` string and `none`
  (SQL NULL) otherwise; a NULL comparison makes the WHERE clause drop the row.
* The value of `DATE('now', '-1 year')` is passed in as the parameter `c`
  (the cutoff date string) of every dispatch function.
* A tool call's observable outcome is a `DispatchResult`: the content list or
  a thrown error, the table after the call, and how many SQL statements were
  executed against the database during the call.
-/

/-- Left-pad the decimal representation of a natural number with zeros. -/
def natPad (n : Nat) (len : Nat) : String :=
  let s := toString n
  String.mk (List.replicate (len - s.length) '0') ++ s

/-- Drop trailing zero digits of a fractional-part digit string. -/
def dropTrailingZeros (s : String) : String :=
  String.mk ((s.data.reverse.dropWhile (fun ch => ch = '0')).reverse)

/-- Rendering of a JavaScript / SQLite number (modelled as `Rat`) the way
`${...}` template interpolation prints it: integers without a decimal point,
other values by their exact decimal expansion.  Rationals whose denominator
does not divide `10 ^ 50` cannot arise from the decimal literals the servers
handle; they fall back to fraction notation. -/
def ratNumStr (q : Rat) : String :=
  let sign := if q < 0 then "-" else ""
  let n := q.num.natAbs
  if q.den = 1 then
    sign ++ toString n
  else if (10 : Nat) ^ 50 % q.den = 0 then
    let scaled := n * ((10 : Nat) ^ 50 / q.den)
    let ip := scaled / (10 : Nat) ^ 50
    let frac := dropTrailingZeros (natPad (scaled % (10 : Nat) ^ 50) 50)
    sign ++ toString ip ++ (if frac = "" then "" else "." ++ frac)
  else
    sign ++ toString n ++ "/" ++ toString q.den

/-- JavaScript `Number.prototype.toFixed(2)`: round to the nearest multiple of
1/100, ties to the larger value. -/
def toFixed2 (q : Rat) : String :=
  let n : Int := ⌊q * 100 + 1 / 2⌋
  let sign := if n < 0 then "-" else ""
  sign ++ toString (n.natAbs / 100) ++ "." ++ natPad (n.natAbs % 100) 2

/-- JavaScript `Math.round`: nearest integer, ties toward positive infinity. -/
def mathRound (q : Rat) : Int := ⌊q + 1 / 2⌋

/-- SQLite TEXT (BINARY collation) comparison on character lists; UTF-8 byte
order coincides with code point order. -/
def charsLe : List Char → List Char → Bool
  | [], _ => true
  | _ :: _, [] => false
  | a :: as, b :: bs => if a = b then charsLe as bs else decide (a.toNat < b.toNat)

/-- `x <= y` between two SQLite TEXT values. -/
def sqlTextLe (a b : String) : Bool := charsLe a.data b.data

/-- Numeric value of a run of decimal digit characters. -/
def digitsVal (l : List Char) : Nat :=
  l.foldl (fun acc ch => acc * 10 + (ch.toNat - 48)) 0

/-- Gregorian leap year. -/
def isLeap (y : Nat) : Bool := (y % 4 = 0 && y % 100 ≠ 0) || y % 400 = 0

/-- Number of days of month `m` in year `y`. -/
def daysInMonth (y m : Nat) : Nat :=
  if m = 2 then (if isLeap y then 29 else 28)
  else if m = 4 || m = 6 || m = 9 || m = 11 then 30
  else 31

/-- A calendar-valid `YYYY-MM-DD` string, the inputs on which SQLite's
`DATE` function is the identity. -/
def isSqlDate (s : String) : Bool :=
  match s.data with
  | [y1, y2, y3, y4, '-', m1, m2, '-', d1, d2] =>
    [y1, y2, y3, y4, m1, m2, d1, d2].all Char.isDigit &&
      (let y := digitsVal [y1, y2, y3, y4]
       let m := digitsVal [m1, m2]
       let d := digitsVal [d1, d2]
       1 ≤ m && m ≤ 12 && 1 ≤ d && d ≤ daysInMonth y m)
  | _ => false

/-- The SQLite `DATE(x)` builtin on a stored TEXT value, `none` standing for
SQL NULL.  Simplified model: it returns the string unchanged when it is a
calendar-valid `YYYY-MM-DD` string and NULL otherwise; denormal inputs that
real SQLite would renormalise are outside the model. -/
def sqliteDate (s : String) : Option String :=
  if isSqlDate s then some s else none

/-- One row of the `employees` table (`src/employee.ts` lines 11-24 and
`src/screenshoot.ts` lines 50-63 declare the identical schema). -/
structure Employee where
  id : Int
  name : String
  department : String
  level : String
  performance_score : Rat
  quarterly_rating : String
  bonus : Rat
  hire_date : String
  manager_id : Option Rat
deriving DecidableEq, Repr

/-- The in-memory database: the `employees` rows in rowid order plus the next
AUTOINCREMENT id. -/
structure DB where
  rows : List Employee
  nextId : Int
deriving DecidableEq, Repr

/-- One item of a tool result's `content` array, kept as the wire-level record
so that the payload kind is a genuine observation. -/
structure ContentItem where
  type : String
  text : Option String := none
  data : Option String := none
  mimeType : Option String := none
deriving DecidableEq, Repr

/-- A `{ type: "text", text: s }` payload. -/
def mkText (s : String) : ContentItem := { type := "text", text := some s }

/-- A `{ type: "image", data: d, mimeType: m }` payload. -/
def mkImage (d m : String) : ContentItem :=
  { type := "image", data := some d, mimeType := some m }

/-- Whether an item is a text payload or an image payload. -/
def payloadOk (c : ContentItem) : Bool :=
  (c.type == "text" && c.text.isSome) ||
    (c.type == "image" && c.data.isSome && c.mimeType.isSome)

/-- The arguments object of a tool call: a JavaScript object from which each
handler picks the fields it cares about.  A missing property is `none`. -/
structure Args where
  name : Option String := none
  department : Option String := none
  level : Option String := none
  min_performance : Option Rat := none
  performance_score : Option Rat := none
  quarterly_rating : Option String := none
  bonus : Option Rat := none
  hire_date : Option String := none
  manager_id : Option Rat := none
  employee_id : Option Rat := none
deriving DecidableEq, Repr

/-- JavaScript truthiness of a possibly-missing string: `undefined` and the
empty string are falsy. -/
def truthyS : Option String → Bool
  | some s => !(s == "")
  | none => false

/-- JavaScript truthiness of a possibly-missing number: `undefined` and `0`
are falsy. -/
def truthyN : Option Rat → Bool
  | some q => !(q == 0)
  | none => false

/-- `manager_id || null` (`src/employee.ts` line 114): `undefined` and `0`
become SQL NULL. -/
def jsOrNull : Option Rat → Option Rat
  | some q => if q == 0 then none else some q
  | none => none

/-- `${x}` on a possibly-undefined number. -/
def optNumStr : Option Rat → String
  | some q => ratNumStr q
  | none => "undefined"

deriving instance DecidableEq for Except

/-- The outcome of one CallTool dispatch: the returned content (or the thrown
error), the table after the call, and the number of SQL statements executed. -/
structure DispatchResult where
  content : Except String (List ContentItem)
  db : DB
  sqlCount : Nat
deriving DecidableEq, Repr

/-- Stable-enough insertion step for the `ORDER BY` model. -/
def insertLe {α : Type} (le : α → α → Bool) (x : α) : List α → List α
  | [] => [x]
  | y :: ys => if le x y then x :: y :: ys else y :: insertLe le x ys

/-- Insertion sort used to model SQL `ORDER BY`. -/
def sortLe {α : Type} (le : α → α → Bool) : List α → List α
  | [] => []
  | x :: xs => insertLe le x (sortLe le xs)

/-- `ORDER BY performance_score DESC`. -/
def sortByPerfDesc (l : List Employee) : List Employee :=
  sortLe (fun a b => decide (b.performance_score ≤ a.performance_score)) l

/-- `ORDER BY level DESC, performance_score DESC`. -/
def sortByLevelPerfDesc (l : List Employee) : List Employee :=
  sortLe
    (fun (a b : Employee) =>
      if a.level = b.level then decide (b.performance_score ≤ a.performance_score)
      else sqlTextLe b.level a.level)
    l

/-- `ORDER BY level DESC`. -/
def sortByLevelDesc (l : List Employee) : List Employee :=
  sortLe (fun a b => sqlTextLe b.level a.level) l

/-- The per-row line of the `query_employees` listing
(`src/employee.ts` line 79, `src/screenshoot.ts` line 226). -/
def formatQueryRow (e : Employee) : String :=
  "ID: " ++ toString e.id ++ "\n氏名: " ++ e.name ++ "\n部署: " ++ e.department ++
    "\n等級: " ++ e.level ++ "\nパフォーマンス: " ++ ratNumStr e.performance_score ++
    "\n評価: " ++ e.quarterly_rating ++ "\nボーナス: ¥" ++ ratNumStr e.bonus ++
    "\n入社日: " ++ e.hire_date ++ "\n"

/-- The WHERE clause built by `query_employees` (`src/employee.ts` lines 51-65,
`src/screenshoot.ts` lines 198-212): each filter is appended only when the
argument is truthy. -/
def queryFilter (a : Args) (e : Employee) : Bool :=
  (if truthyS a.department then e.department == a.department.getD "" else true) &&
    (if truthyS a.level then e.level == a.level.getD "" else true) &&
    (if truthyN a.min_performance then
      decide (a.min_performance.getD 0 ≤ e.performance_score)
    else true)

/-- The rows returned by the `query_employees` SELECT, in
`ORDER BY performance_score DESC` order. -/
def queryRows (db : DB) (a : Args) : List Employee :=
  sortByPerfDesc (db.rows.filter (queryFilter a))

/-- The `query_employees` handler body, identical in `src/employee.ts`
lines 50-85 and `src/screenshoot.ts` lines 197-232. -/
def queryH (db : DB) (a : Args) : DispatchResult :=
  let employees := queryRows db a
  { content := .ok [mkText (toString employees.length ++ "人の社員が検索されました:\n\n" ++
      String.intercalate "\n" (employees.map formatQueryRow))],
    db := db,
    sqlCount := 1 }

/-- The NOT NULL columns of the INSERT must all be bound to a present value;
a missing one makes the statement fail with a constraint error. -/
def addRequired (a : Args) : Bool :=
  a.name.isSome && a.department.isSome && a.level.isSome &&
    a.performance_score.isSome && a.quarterly_rating.isSome && a.bonus.isSome &&
    a.hire_date.isSome

/-- The row inserted by `add_employee`: the AUTOINCREMENT id plus the bound
argument values, with `manager_id || null`. -/
def addRow (db : DB) (a : Args) : Employee :=
  { id := db.nextId,
    name := a.name.getD "",
    department := a.department.getD "",
    level := a.level.getD "",
    performance_score := a.performance_score.getD 0,
    quarterly_rating := a.quarterly_rating.getD "",
    bonus := a.bonus.getD 0,
    hire_date := a.hire_date.getD "",
    manager_id := jsOrNull a.manager_id }

/-- The `add_employee` handler body, identical in `src/employee.ts`
lines 100-125 and `src/screenshoot.ts` lines 234-259: one INSERT, then a
message reporting `result.lastInsertRowid`. -/
def addEmployeeH (db : DB) (a : Args) : DispatchResult :=
  if addRequired a then
    { content := .ok [mkText ("社員 " ++ a.name.getD "" ++
        " を正常に追加しました。ID: " ++ toString db.nextId)],
      db := { rows := db.rows ++ [addRow db a], nextId := db.nextId + 1 },
      sqlCount := 1 }
  else
    { content := .error "NOT NULL constraint failed", db := db, sqlCount := 1 }

/-- The aggregate row computed per department by `department_stats`. -/
structure DeptStats where
  department : String
  employee_count : Nat
  avg_performance : Rat
  avg_bonus : Rat
  min_performance : Rat
  max_performance : Rat
deriving DecidableEq, Repr

/-- Sum of a projection over rows. -/
def sumBy (f : Employee → Rat) (l : List Employee) : Rat :=
  l.foldr (fun e acc => f e + acc) 0

/-- SQL MIN over a group (0 is never observed: groups are nonempty). -/
def minBy (f : Employee → Rat) : List Employee → Rat
  | [] => 0
  | e :: es => (es.map f).foldl min (f e)

/-- SQL MAX over a group (0 is never observed: groups are nonempty). -/
def maxBy (f : Employee → Rat) : List Employee → Rat
  | [] => 0
  | e :: es => (es.map f).foldl max (f e)

/-- The GROUP BY aggregates for the rows of one department. -/
def statsFor (d : String) (l : List Employee) : DeptStats :=
  { department := d,
    employee_count := l.length,
    avg_performance := sumBy (fun e => e.performance_score) l / l.length,
    avg_bonus := sumBy (fun e => e.bonus) l / l.length,
    min_performance := minBy (fun e => e.performance_score) l,
    max_performance := maxBy (fun e => e.performance_score) l }

/-- The rows of one department, in rowid order. -/
def deptRows (db : DB) (d : String) : List Employee :=
  db.rows.filter (fun e => e.department == d)

/-- The per-department line of the all-departments `department_stats` listing.  -/
def statsLine (s : DeptStats) : String :=
  "【" ++ s.department ++ "】\n人数: " ++ toString s.employee_count ++
    "人 | 平均パフォーマンス: " ++ toFixed2 s.avg_performance ++
    " | 平均ボーナス: ¥" ++ toString (mathRound s.avg_bonus)

/-- `ORDER BY avg_performance DESC` on the aggregate rows. -/
def sortStatsByAvgDesc (l : List DeptStats) : List DeptStats :=
  sortLe (fun (s t : DeptStats) => decide (t.avg_performance ≤ s.avg_performance)) l

/-- The distinct department group keys in ascending key order, as SQLite's
GROUP BY temp b-tree produces them. -/
def deptKeys (db : DB) : List String :=
  sortLe sqlTextLe (db.rows.map (fun e => e.department)).dedup

/-- The `department_stats` handler body, identical in `src/employee.ts`
lines 133-183 and `src/screenshoot.ts` lines 261-311. -/
def departmentStatsH (db : DB) (a : Args) : DispatchResult :=
  if truthyS a.department then
    let d := a.department.getD ""
    let l := deptRows db d
    if l.isEmpty then
      { content := .ok [mkText ("部署が見つかりません: " ++ d)], db := db, sqlCount := 1 }
    else
      let s := statsFor d l
      { content := .ok [mkText (s.department ++ "部署統計:\n\n社員数: " ++
          toString s.employee_count ++ "人\n平均パフォーマンス: " ++
          toFixed2 s.avg_performance ++ "\n平均ボーナス: ¥" ++
          toString (mathRound s.avg_bonus) ++ "\nパフォーマンス範囲: " ++
          ratNumStr s.min_performance ++ " - " ++ ratNumStr s.max_performance)],
        db := db,
        sqlCount := 1 }
  else
    let allStats := sortStatsByAvgDesc
      ((deptKeys db).map (fun d => statsFor d (deptRows db d)))
    { content := .ok [mkText ("各部署統計:\n\n" ++
        String.intercalate "\n\n" (allStats.map statsLine))],
      db := db,
      sqlCount := 1 }

/-- The `promotion_candidates` WHERE clause of `src/employee.ts` lines 192-196:
the TEXT `hire_date` is compared directly against `DATE('now', '-1 year')`. -/
def promoFilterEmp (c : String) (e : Employee) : Bool :=
  decide (4 ≤ e.performance_score) && sqlTextLe e.hire_date c

/-- The `promotion_candidates` WHERE clause of `src/screenshoot.ts`
lines 314-318: `DATE(hire_date)` is compared, so a date SQLite cannot parse
becomes NULL and the row is dropped. -/
def promoFilterScr (c : String) (e : Employee) : Bool :=
  decide (4 ≤ e.performance_score) &&
    (match sqliteDate e.hire_date with
     | some d => sqlTextLe d c
     | none => false)

/-- The candidate line of the per-department `promotion_candidates` listing. -/
def promoDeptLine (e : Employee) : String :=
  e.name ++ " | " ++ e.level ++ " | パフォーマンス: " ++
    ratNumStr e.performance_score ++ " | 入社日: " ++ e.hire_date

/-- The candidate line of the company-wide `promotion_candidates` listing. -/
def promoAllLine (e : Employee) : String :=
  e.name ++ " | " ++ e.department ++ " | " ++ e.level ++ " | パフォーマンス: " ++
    ratNumStr e.performance_score

/-- The `promotion_candidates` handler body shared by both servers, abstracted
over the hire-date predicate `pf` in which the two files differ
(`src/employee.ts` lines 191-235, `src/screenshoot.ts` lines 313-357). -/
def promotionH (pf : String → Employee → Bool) (c : String) (db : DB) (a : Args) :
    DispatchResult :=
  if truthyS a.department then
    let d := a.department.getD ""
    let candidates := db.rows.filter (fun e => pf c e && e.department == d)
    { content := .ok [mkText (d ++ "部署の昇進候補者 (" ++
        toString candidates.length ++ "人):\n\n" ++
        String.intercalate "\n" (candidates.map promoDeptLine))],
      db := db,
      sqlCount := 1 }
  else
    let candidates := sortByPerfDesc (db.rows.filter (pf c))
    { content := .ok [mkText ("全社昇進候補者 (" ++
        toString candidates.length ++ "人):\n\n" ++
        String.intercalate "\n" (candidates.map promoAllLine))],
      db := db,
      sqlCount := 1 }

/-- `WHERE id = ?` against a possibly-undefined bound number: `undefined`
binds NULL, which matches no row. -/
def idEq (o : Option Rat) (e : Employee) : Bool :=
  match o with
  | some q => (e.id : Rat) == q
  | none => false

/-- The SET clause of `update_performance`: `performance_score` and `bonus`
are included when not `undefined`, `quarterly_rating` when truthy. -/
def applyUpdates (a : Args) (e : Employee) : Employee :=
  let e1 := match a.performance_score with
    | some p => { e with performance_score := p }
    | none => e
  let e2 := if truthyS a.quarterly_rating then
      { e1 with quarterly_rating := a.quarterly_rating.getD "" }
    else e1
  match a.bonus with
  | some b => { e2 with bonus := b }
  | none => e2

/-- The `update_performance` handler body, identical in `src/employee.ts`
lines 246-288 and `src/screenshoot.ts` lines 359-401: an early return when no
field is supplied, one UPDATE, an early return when it changed no row, then
one SELECT for the employee's name. -/
def updateH (db : DB) (a : Args) : DispatchResult :=
  let hasUpdates := a.performance_score.isSome || truthyS a.quarterly_rating ||
    a.bonus.isSome
  if hasUpdates then
    let changes := db.rows.countP (fun e => idEq a.employee_id e)
    let newRows := db.rows.map (fun e => if idEq a.employee_id e then applyUpdates a e else e)
    let db2 : DB := { rows := newRows, nextId := db.nextId }
    if changes == 0 then
      { content := .ok [mkText ("ID " ++ optNumStr a.employee_id ++
          " の社員が見つかりません")],
        db := db2,
        sqlCount := 1 }
    else
      let nm := ((newRows.find? (fun e => idEq a.employee_id e)).map
        (fun e => e.name)).getD "undefined"
      { content := .ok [mkText ("社員 " ++ nm ++
          " のパフォーマンス情報を正常に更新しました")],
        db := db2,
        sqlCount := 2 }
  else
    { content := .ok [mkText "更新するフィールドが指定されていません"], db := db, sqlCount := 0 }

/-- The per-member line of a team listing in `get_team_hierarchy`. -/
def teamLine (e : Employee) : String :=
  "  ├─ " ++ e.name ++ " | " ++ e.level ++ " | パフォーマンス: " ++
    ratNumStr e.performance_score

/-- `SELECT * FROM employees WHERE manager_id = ? ORDER BY level DESC,
performance_score DESC`. -/
def teamOf (db : DB) (q : Rat) : List Employee :=
  sortByLevelPerfDesc (db.rows.filter (fun e =>
    match e.manager_id with
    | some m => m == q
    | none => false))

/-- The `get_team_hierarchy` handler body, identical in `src/employee.ts`
lines 296-350 and `src/screenshoot.ts` lines 403-457: with a truthy
`manager_id` one team query plus one manager lookup; otherwise one top-manager
query followed by one team query per top manager. -/
def hierH (db : DB) (a : Args) : DispatchResult :=
  if truthyN a.manager_id then
    let q := a.manager_id.getD 0
    let team := teamOf db q
    match db.rows.find? (fun e => (e.id : Rat) == q) with
    | none =>
      { content := .ok [mkText ("ID " ++ ratNumStr q ++ " のマネージャーが見つかりません")],
        db := db,
        sqlCount := 2 }
    | some mgr =>
      { content := .ok [mkText (mgr.name ++ " (" ++ mgr.level ++ ") のチーム (" ++
          toString team.length ++ "人):\n\n" ++
          String.intercalate "\n" (team.map teamLine))],
        db := db,
        sqlCount := 2 }
  else
    let tops := sortByLevelDesc (db.rows.filter (fun e => e.manager_id == none))
    let hierarchy := tops.map (fun m =>
      m.name ++ " (" ++ m.level ++ ") - " ++ m.department ++ "\n" ++
        String.intercalate "\n" ((teamOf db (m.id : Rat)).map teamLine))
    { content := .ok [mkText ("チーム階層構造:\n\n" ++
        String.intercalate "\n\n" hierarchy)],
      db := db,
      sqlCount := 1 + tops.length }

/-- The `z.enum(["A+", "A", "B+", "B", "C"])` check. -/
def ratingOk (r : String) : Bool :=
  r == "A+" || r == "A" || r == "B+" || r == "B" || r == "C"

/-- The zod schema of `add_employee` (`src/employee.ts` lines 90-98): seven
required fields, `performance_score` within `[1, 5]`, `quarterly_rating` in
the five-letter enum, `manager_id` optional. -/
def addValid (a : Args) : Bool :=
  a.name.isSome && a.department.isSome && a.level.isSome &&
    (match a.performance_score with
     | some p => decide (1 ≤ p) && decide (p ≤ 5)
     | none => false) &&
    (match a.quarterly_rating with
     | some r => ratingOk r
     | none => false) &&
    a.bonus.isSome && a.hire_date.isSome

/-- The zod schema of `update_performance` (`src/employee.ts` lines 240-244):
`employee_id` required, the optional `performance_score` within `[1, 5]`, the
optional `quarterly_rating` in the enum. -/
def updateValid (a : Args) : Bool :=
  a.employee_id.isSome &&
    (match a.performance_score with
     | some p => decide (1 ≤ p) && decide (p ≤ 5)
     | none => true) &&
    (match a.quarterly_rating with
     | some r => ratingOk r
     | none => true)

/-- Whether an arguments object parses under the zod schema `src/employee.ts`
declares for the named tool; `false` for an unregistered name.  The schemas of
the four read-only tools have only optional unconstrained fields and accept
every object. -/
def empArgsValid (name : String) (a : Args) : Bool :=
  if name = "query_employees" then true
  else if name = "add_employee" then addValid a
  else if name = "department_stats" then true
  else if name = "promotion_candidates" then true
  else if name = "update_performance" then updateValid a
  else if name = "get_team_hierarchy" then true
  else false

/-- The six registered tool names of the employee servers. -/
def toolNames : List String :=
  ["query_employees", "add_employee", "department_stats", "promotion_candidates",
   "update_performance", "get_team_hierarchy"]

/-- The raw `Server` dispatch of `src/screenshoot.ts` lines 189-462: reject a
request without arguments, then switch on the tool name with no schema
validation; an unregistered name falls to the `default` throw. -/
def scrCallTool (c : String) (db : DB) (name : String) (args : Option Args) :
    DispatchResult :=
  match args with
  | none => { content := .error "Missing arguments", db := db, sqlCount := 0 }
  | some a =>
    if name = "query_employees" then queryH db a
    else if name = "add_employee" then addEmployeeH db a
    else if name = "department_stats" then departmentStatsH db a
    else if name = "promotion_candidates" then promotionH promoFilterScr c db a
    else if name = "update_performance" then updateH db a
    else if name = "get_team_hierarchy" then hierH db a
    else { content := .error ("不明なツール: " ++ name), db := db, sqlCount := 0 }

/-- The `McpServer` dispatch of `src/employee.ts`.  Modelled from the spec:
the "generic tool-dispatch façade translating a declarative schema into
validated function calls" lives in the MCP SDK, which parses the arguments
with the tool's zod schema and rejects the call before the handler runs when
parsing fails (the rejection messages are the SDK's, not the repository's). -/
def empCallTool (c : String) (db : DB) (name : String) (args : Option Args) :
    DispatchResult :=
  match args with
  | none => { content := .error "Invalid arguments", db := db, sqlCount := 0 }
  | some a =>
    if empArgsValid name a then
      if name = "query_employees" then queryH db a
      else if name = "add_employee" then addEmployeeH db a
      else if name = "department_stats" then departmentStatsH db a
      else if name = "promotion_candidates" then promotionH promoFilterEmp c db a
      else if name = "update_performance" then updateH db a
      else if name = "get_team_hierarchy" then hierH db a
      else { content := .error ("Tool " ++ name ++ " not found"), db := db, sqlCount := 0 }
    else
      { content := .error ("Invalid arguments for tool " ++ name), db := db, sqlCount := 0 }

/-- The base64 alphabet. -/
def b64Alphabet : List Char :=
  "ABCDEFGHIJKLMNOPQRSTUVWXYZabcdefghijklmnopqrstuvwxyz0123456789+/".data

/-- The base64 digit of a 6-bit value. -/
def b64Char (n : Nat) : Char := b64Alphabet.getD n 'A'

/-- Standard base64 encoding of a byte list, as `Uint8Array.toBase64()`
produces it. -/
def base64Encode : List Nat → String
  | [] => ""
  | [a] =>
    String.mk [b64Char (a / 4), b64Char (a % 4 * 16)] ++ "=="
  | [a, b] =>
    String.mk [b64Char (a / 4), b64Char (a % 4 * 16 + b / 16), b64Char (b % 16 * 4)] ++ "="
  | a :: b :: d :: rest =>
    String.mk [b64Char (a / 4), b64Char (a % 4 * 16 + b / 16),
      b64Char (b % 16 * 4 + d / 64), b64Char (d % 64)] ++ base64Encode rest

/-- The observable browser-automation steps of `get_screenshot`. -/
inductive BrowserAction where
  | launch
  | newPage
  | goto (url : String)
  | screenshot
deriving DecidableEq, Repr

/-- The outcome of a `get_screenshot` call: the returned content and the trace
of browser actions performed. -/
structure ScreenshotResult where
  content : List ContentItem
  trace : List BrowserAction
deriving DecidableEq, Repr

/-- The `get_screenshot` handler of `src/screenshoot.ts` lines 13-27.  The
external browser is the oracle `capture`, giving the PNG bytes the headless
page capture produces for a url. -/
def getScreenshot (capture : String → List Nat) (url : String) : ScreenshotResult :=
  { content := [mkImage (base64Encode (capture url)) "image/png"],
    trace := [.launch, .newPage, .goto url, .screenshot] }

/-! ### Helper lemmas -/

theorem mem_insertLe {α : Type} (le : α → α → Bool) (x a : α) (l : List α) :
    a ∈ insertLe le x l ↔ a = x ∨ a ∈ l := by
  induction l with
  | nil => simp [insertLe]
  | cons y ys ih =>
    simp only [insertLe]
    split
    · simp [List.mem_cons]
    · simp only [List.mem_cons, ih]
      tauto

theorem mem_sortLe {α : Type} (le : α → α → Bool) (a : α) (l : List α) :
    a ∈ sortLe le l ↔ a ∈ l := by
  induction l with
  | nil => simp [sortLe]
  | cons y ys ih => simp [sortLe, mem_insertLe, ih, List.mem_cons]

theorem length_insertLe {α : Type} (le : α → α → Bool) (x : α) (l : List α) :
    (insertLe le x l).length = l.length + 1 := by
  induction l with
  | nil => simp [insertLe]
  | cons y ys ih =>
    simp only [insertLe]
    split
    · simp
    · simp [ih]

theorem length_sortLe {α : Type} (le : α → α → Bool) (l : List α) :
    (sortLe le l).length = l.length := by
  induction l with
  | nil => rfl
  | cons y ys ih => simp [sortLe, length_insertLe, ih]

theorem queryH_db (db : DB) (a : Args) : (queryH db a).db = db := rfl

theorem departmentStatsH_db (db : DB) (a : Args) : (departmentStatsH db a).db = db := by
  unfold departmentStatsH
  dsimp only
  split
  · split <;> rfl
  · rfl

theorem promotionH_db (pf : String → Employee → Bool) (c : String) (db : DB) (a : Args) :
    (promotionH pf c db a).db = db := by
  unfold promotionH
  dsimp only
  split <;> rfl

theorem hierH_db (db : DB) (a : Args) : (hierH db a).db = db := by
  unfold hierH
  dsimp only
  split
  · split <;> rfl
  · rfl

/-- Whether every content item a dispatch returned is a text or image payload
(a thrown error returns no content). -/
def resultPayloadsOk (r : DispatchResult) : Bool :=
  match r.content with
  | .ok l => l.all payloadOk
  | .error _ => true

theorem queryH_payloads (db : DB) (a : Args) : resultPayloadsOk (queryH db a) = true := rfl

theorem addEmployeeH_payloads (db : DB) (a : Args) :
    resultPayloadsOk (addEmployeeH db a) = true := by
  unfold addEmployeeH
  split <;> rfl

theorem departmentStatsH_payloads (db : DB) (a : Args) :
    resultPayloadsOk (departmentStatsH db a) = true := by
  unfold departmentStatsH
  dsimp only
  split
  · split <;> rfl
  · rfl

theorem promotionH_payloads (pf : String → Employee → Bool) (c : String) (db : DB)
    (a : Args) : resultPayloadsOk (promotionH pf c db a) = true := by
  unfold promotionH
  dsimp only
  split <;> rfl

theorem updateH_payloads (db : DB) (a : Args) : resultPayloadsOk (updateH db a) = true := by
  unfold updateH
  dsimp only
  split
  · split <;> rfl
  · rfl

theorem hierH_payloads (db : DB) (a : Args) : resultPayloadsOk (hierH db a) = true := by
  unfold hierH
  dsimp only
  split
  · split <;> rfl
  · rfl

theorem queryH_count (db : DB) (a : Args) : (queryH db a).sqlCount = 1 := rfl

theorem addEmployeeH_count (db : DB) (a : Args) : (addEmployeeH db a).sqlCount = 1 := by
  unfold addEmployeeH
  split <;> rfl

theorem departmentStatsH_count (db : DB) (a : Args) :
    (departmentStatsH db a).sqlCount = 1 := by
  unfold departmentStatsH
  dsimp only
  split
  · split <;> rfl
  · rfl

theorem promotionH_count (pf : String → Employee → Bool) (c : String) (db : DB)
    (a : Args) : (promotionH pf c db a).sqlCount = 1 := by
  unfold promotionH
  dsimp only
  split <;> rfl

theorem updateH_count (db : DB) (a : Args) : (updateH db a).sqlCount ≤ 2 := by
  unfold updateH
  dsimp only
  split
  · split <;> simp
  · simp

theorem hierH_count (db : DB) (a : Args) :
    (hierH db a).sqlCount =
      if truthyN a.manager_id then 2
      else 1 + (db.rows.filter (fun e => e.manager_id == none)).length := by
  unfold hierH
  dsimp only
  split
  · split <;> rfl
  · simp [sortByLevelDesc, length_sortLe]

theorem empCallTool_query (c : String) (db : DB) (a : Args) :
    empCallTool c db "query_employees" (some a) = queryH db a := rfl

theorem empCallTool_add (c : String) (db : DB) (a : Args) :
    empCallTool c db "add_employee" (some a) =
      if addValid a then addEmployeeH db a
      else
        { content := .error ("Invalid arguments for tool " ++ "add_employee"),
          db := db,
          sqlCount := 0 } := rfl

theorem empCallTool_stats (c : String) (db : DB) (a : Args) :
    empCallTool c db "department_stats" (some a) = departmentStatsH db a := rfl

theorem empCallTool_promo (c : String) (db : DB) (a : Args) :
    empCallTool c db "promotion_candidates" (some a) =
      promotionH promoFilterEmp c db a := rfl

theorem empCallTool_update (c : String) (db : DB) (a : Args) :
    empCallTool c db "update_performance" (some a) =
      if updateValid a then updateH db a
      else
        { content := .error ("Invalid arguments for tool " ++ "update_performance"),
          db := db,
          sqlCount := 0 } := rfl

theorem empCallTool_hier (c : String) (db : DB) (a : Args) :
    empCallTool c db "get_team_hierarchy" (some a) = hierH db a := rfl

/-! ### Claim theorems -/

/-- C3: every content item a completed tool call returns, on the employee
server, the raw employee server and the screenshot server alike, is either a
text payload (type "text" with a string text field) or an image payload (type
"image" with base64 data and a mimeType); no other payload kind occurs. -/
theorem c3_content_is_text_or_image (c : String) (db : DB) (name : String)
    (args : Option Args) (capture : String → List Nat) (url : String) :
    resultPayloadsOk (empCallTool c db name args) = true ∧
    resultPayloadsOk (scrCallTool c db name args) = true ∧
    (getScreenshot capture url).content.all payloadOk = true := by
  refine ⟨?_, ?_, rfl⟩
  · unfold empCallTool
    cases args with
    | none => rfl
    | some a =>
      dsimp only
      split_ifs <;>
        first
          | rfl
          | exact queryH_payloads db a
          | exact addEmployeeH_payloads db a
          | exact departmentStatsH_payloads db a
          | exact promotionH_payloads promoFilterEmp c db a
          | exact updateH_payloads db a
          | exact hierH_payloads db a
  · unfold scrCallTool
    cases args with
    | none => rfl
    | some a =>
      dsimp only
      split_ifs <;>
        first
          | rfl
          | exact queryH_payloads db a
          | exact addEmployeeH_payloads db a
          | exact departmentStatsH_payloads db a
          | exact promotionH_payloads promoFilterScr c db a
          | exact updateH_payloads db a
          | exact hierH_payloads db a

/-- C5: the four reporting tools are read-only: on every table state and every
arguments object (present or missing), `query_employees`, `department_stats`,
`promotion_candidates` and `get_team_hierarchy` leave the employees table of
both employee servers exactly as it was. -/
theorem c5_reporting_tools_read_only (c : String) (db : DB) (args : Option Args) :
    (empCallTool c db "query_employees" args).db = db ∧
    (scrCallTool c db "query_employees" args).db = db ∧
    (empCallTool c db "department_stats" args).db = db ∧
    (scrCallTool c db "department_stats" args).db = db ∧
    (empCallTool c db "promotion_candidates" args).db = db ∧
    (scrCallTool c db "promotion_candidates" args).db = db ∧
    (empCallTool c db "get_team_hierarchy" args).db = db ∧
    (scrCallTool c db "get_team_hierarchy" args).db = db := by
  cases args with
  | none => exact ⟨rfl, rfl, rfl, rfl, rfl, rfl, rfl, rfl⟩
  | some a =>
    refine ⟨?_, ?_, ?_, ?_, ?_, ?_, ?_, ?_⟩ <;>
      simp [empCallTool, scrCallTool, empArgsValid, queryH_db, departmentStatsH_db,
        promotionH_db, hierH_db]

/-- C6: `get_screenshot` performs the browser automation (launch, open page,
navigate to the url, capture) and returns exactly one content item, an image
payload whose mimeType is "image/png" and whose data is the base64 encoding of
the captured bytes. -/
theorem c6_get_screenshot_returns_png_image (capture : String → List Nat)
    (url : String) :
    (getScreenshot capture url).content =
      [mkImage (base64Encode (capture url)) "image/png"] ∧
    (getScreenshot capture url).trace =
      [BrowserAction.launch, BrowserAction.newPage, BrowserAction.goto url,
        BrowserAction.screenshot] :=
  ⟨rfl, rfl⟩

/-- C2 (amended): per-call SQL statement counts of the six employee-server
tools: `query_employees`, `add_employee`, `department_stats` and
`promotion_candidates` execute at most one statement, `update_performance` at
most two (UPDATE plus the name SELECT), and `get_team_hierarchy` exactly two
with a truthy `manager_id` and one plus the number of top managers without. -/
theorem c2_amended_per_tool_statement_counts (c : String) (db : DB) (a : Args) :
    (empCallTool c db "query_employees" (some a)).sqlCount ≤ 1 ∧
    (empCallTool c db "add_employee" (some a)).sqlCount ≤ 1 ∧
    (empCallTool c db "department_stats" (some a)).sqlCount ≤ 1 ∧
    (empCallTool c db "promotion_candidates" (some a)).sqlCount ≤ 1 ∧
    (empCallTool c db "update_performance" (some a)).sqlCount ≤ 2 ∧
    (empCallTool c db "get_team_hierarchy" (some a)).sqlCount =
      (if truthyN a.manager_id then 2
       else 1 + (db.rows.filter (fun e => e.manager_id == none)).length) := by
  refine ⟨?_, ?_, ?_, ?_, ?_, ?_⟩
  · rw [empCallTool_query]
    exact Nat.le_of_eq (queryH_count db a)
  · rw [empCallTool_add]
    split
    · simp [addEmployeeH_count]
    · simp
  · rw [empCallTool_stats]
    exact Nat.le_of_eq (departmentStatsH_count db a)
  · rw [empCallTool_promo]
    exact Nat.le_of_eq (promotionH_count promoFilterEmp c db a)
  · rw [empCallTool_update]
    split
    · exact updateH_count db a
    · simp
  · rw [empCallTool_hier]
    exact hierH_count db a

/-- C2 (counterexample): on the empty table, `get_team_hierarchy` with
`manager_id = 1` executes two SQL statements (the team query and the manager
lookup), not at most one. -/
theorem c2_counterexample_two_statements :
    (empCallTool "2024-10-11" { rows := [], nextId := 1 } "get_team_hierarchy"
      (some { manager_id := some 1 })).sqlCount = 2 ∧
    ¬ (empCallTool "2024-10-11" { rows := [], nextId := 1 } "get_team_hierarchy"
      (some { manager_id := some 1 })).sqlCount ≤ 1 := by
  constructor
  · decide
  · decide

/-- C7 (amended): a CallTool request to the raw employee server with an
unregistered tool name throws, executes no SQL and leaves the table unchanged;
the error identifies the unknown tool when the request carries arguments,
while a request without arguments is thrown out earlier with the generic
"Missing arguments" error. -/
theorem c7_amended_unknown_tool_throws (c : String) (db : DB) (name : String)
    (a : Args) (h : name ∉ toolNames) :
    scrCallTool c db name (some a) =
      { content := .error ("不明なツール: " ++ name), db := db, sqlCount := 0 } ∧
    scrCallTool c db name none =
      { content := .error "Missing arguments", db := db, sqlCount := 0 } := by
  refine ⟨?_, rfl⟩
  simp only [toolNames, List.mem_cons, List.not_mem_nil, or_false, not_or] at h
  obtain ⟨h1, h2, h3, h4, h5, h6⟩ := h
  simp [scrCallTool, h1, h2, h3, h4, h5, h6]

/-- C7 (witness): the amended theorem at tool name "foo" on the empty table. -/
theorem c7_witness :
    "foo" ∉ toolNames ∧
    (scrCallTool "2024-10-11" { rows := [], nextId := 1 } "foo" (some {}) =
      { content := .error ("不明なツール: " ++ "foo"), db := { rows := [], nextId := 1 },
        sqlCount := 0 } ∧
    scrCallTool "2024-10-11" { rows := [], nextId := 1 } "foo" none =
      { content := .error "Missing arguments", db := { rows := [], nextId := 1 },
        sqlCount := 0 }) :=
  ⟨by decide,
    c7_amended_unknown_tool_throws "2024-10-11" { rows := [], nextId := 1 } "foo" {}
      (by decide)⟩

/-- C7 (counterexample): a CallTool request with unknown tool name "foo" and no
arguments object is a request whose tool name is not one of the six registered
tools, yet the thrown error is the generic "Missing arguments", which does not
identify the unknown tool. -/
theorem c7_counterexample_missing_args_error :
    "foo" ∉ toolNames ∧
    (scrCallTool "2024-10-11" { rows := [], nextId := 1 } "foo" none).content =
      .error "Missing arguments" ∧
    "Missing arguments" ≠ "不明なツール: foo" ∧
    (scrCallTool "2024-10-11" { rows := [], nextId := 1 } "foo" none).db =
      { rows := [], nextId := 1 } ∧
    (scrCallTool "2024-10-11" { rows := [], nextId := 1 } "foo" none).sqlCount = 0 :=
  ⟨by decide, rfl, by decide, rfl, rfl⟩

/-- C1 (amended): on the `McpServer` employee server of `src/employee.ts`,
arguments that do not parse under the tool's declared zod schema are rejected
by the protocol layer before the handler runs: no SQL statement executes and
the employees table is unchanged.  (The raw server of `src/screenshoot.ts`
performs no such validation; see the counterexample.) -/
theorem c1_amended_mcpserver_rejects_invalid_args (c : String) (db : DB)
    (name : String) (a : Args) (h : empArgsValid name a = false) :
    (empCallTool c db name (some a)).db = db ∧
    (empCallTool c db name (some a)).sqlCount = 0 ∧
    (empCallTool c db name (some a)).content =
      .error ("Invalid arguments for tool " ++ name) := by
  simp [empCallTool, h]

/-- An `add_employee` arguments object that violates the declared schema:
`performance_score` is 7, outside `[1.0, 5.0]`. -/
def badAddArgs : Args :=
  { name := some "社員X", department := some "技術部", level := some "P5",
    performance_score := some 7, quarterly_rating := some "A",
    bonus := some 1000, hire_date := some "2024-01-01" }

/-- C1 (witness): the amended theorem at the schema-invalid `add_employee`
call with `performance_score = 7` on the empty table. -/
theorem c1_witness :
    empArgsValid "add_employee" badAddArgs = false ∧
    ((empCallTool "2024-10-11" { rows := [], nextId := 1 } "add_employee"
        (some badAddArgs)).db = { rows := [], nextId := 1 } ∧
      (empCallTool "2024-10-11" { rows := [], nextId := 1 } "add_employee"
        (some badAddArgs)).sqlCount = 0 ∧
      (empCallTool "2024-10-11" { rows := [], nextId := 1 } "add_employee"
        (some badAddArgs)).content =
        .error ("Invalid arguments for tool " ++ "add_employee")) :=
  ⟨by decide,
    c1_amended_mcpserver_rejects_invalid_args "2024-10-11" { rows := [], nextId := 1 }
      "add_employee" badAddArgs (by decide)⟩

/-- C1 (counterexample): on the raw `Server` of `src/screenshoot.ts`, the same
schema-invalid `add_employee` call (`performance_score = 7`) is not rejected:
the handler runs, the INSERT succeeds and the employees table changes. -/
theorem c1_counterexample_raw_server_accepts_invalid_args :
    empArgsValid "add_employee" badAddArgs = false ∧
    (scrCallTool "2024-10-11" { rows := [], nextId := 1 } "add_employee"
      (some badAddArgs)).content =
      .ok [mkText "社員 社員X を正常に追加しました。ID: 1"] ∧
    (scrCallTool "2024-10-11" { rows := [], nextId := 1 } "add_employee"
      (some badAddArgs)).db ≠ { rows := [], nextId := 1 } :=
  ⟨by decide, rfl, by decide⟩

/-- C9: falsy filter values are ignored: `query_employees` with
`department = ""`, `level = ""` or `min_performance = 0` behaves exactly as if
the argument were omitted (so a `min_performance = 0` listing contains even
employees with negative scores), and `get_team_hierarchy` with
`manager_id = 0` takes the all-top-managers branch of the omitted-argument
call instead of looking up manager 0. -/
theorem c9_falsy_filter_values_ignored (c : String) (db : DB)
    (dp lv : Option String) (mp : Option Rat) (e : Employee) :
    empCallTool c db "query_employees"
        (some { department := some "", level := lv, min_performance := mp }) =
      empCallTool c db "query_employees"
        (some { department := none, level := lv, min_performance := mp }) ∧
    empCallTool c db "query_employees"
        (some { department := dp, level := some "", min_performance := mp }) =
      empCallTool c db "query_employees"
        (some { department := dp, level := none, min_performance := mp }) ∧
    empCallTool c db "query_employees"
        (some { department := dp, level := lv, min_performance := some 0 }) =
      empCallTool c db "query_employees"
        (some { department := dp, level := lv, min_performance := none }) ∧
    empCallTool c db "get_team_hierarchy" (some { manager_id := some 0 }) =
      empCallTool c db "get_team_hierarchy" (some { manager_id := none }) ∧
    (e ∈ db.rows → e.performance_score < 0 →
      e ∈ queryRows db { min_performance := some 0 }) := by
  refine ⟨?_, ?_, ?_, ?_, ?_⟩
  · rw [empCallTool_query, empCallTool_query]
    have hf : queryFilter { department := some "", level := lv, min_performance := mp } =
        queryFilter { department := none, level := lv, min_performance := mp } := by
      funext e
      simp [queryFilter, truthyS]
    unfold queryH queryRows
    rw [hf]
  · rw [empCallTool_query, empCallTool_query]
    have hf : queryFilter { department := dp, level := some "", min_performance := mp } =
        queryFilter { department := dp, level := none, min_performance := mp } := by
      funext e
      simp [queryFilter, truthyS]
    unfold queryH queryRows
    rw [hf]
  · rw [empCallTool_query, empCallTool_query]
    have hf : queryFilter { department := dp, level := lv, min_performance := some 0 } =
        queryFilter { department := dp, level := lv, min_performance := none } := by
      funext e
      simp [queryFilter, truthyN]
    unfold queryH queryRows
    rw [hf]
  · rw [empCallTool_hier, empCallTool_hier]
    unfold hierH
    simp [truthyN]
  · intro he hneg
    simp [queryRows, sortByPerfDesc, mem_sortLe, List.mem_filter, queryFilter,
      truthyS, truthyN, he]

/-- A row with a negative performance score, reachable in the raw server's
unvalidated table. -/
def negScoreRow : Employee :=
  { id := 1, name := "低評価", department := "技術部", level := "P4",
    performance_score := -1, quarterly_rating := "C", bonus := 0,
    hire_date := "2024-01-01", manager_id := none }

/-- C9 (witness): the membership conjunct at a concrete one-row table whose
row has performance score -1. -/
theorem c9_witness :
    negScoreRow ∈ (DB.mk [negScoreRow] 2).rows ∧
    negScoreRow.performance_score < 0 ∧
    negScoreRow ∈ queryRows (DB.mk [negScoreRow] 2) { min_performance := some 0 } :=
  ⟨by decide, by decide,
    (c9_falsy_filter_values_ignored "2024-10-11" (DB.mk [negScoreRow] 2) none none none
      negScoreRow).2.2.2.2 (by decide) (by decide)⟩

/-- C10: `update_performance` is atomic on failure: when none of
`performance_score`, `quarterly_rating`, `bonus` is supplied the handler
returns the no-fields message without touching the database, and when
`employee_id` matches no row the UPDATE changes nothing, the table is
unchanged and the handler reports the employee as not found (or, with no
fields supplied either, the no-fields message). -/
theorem c10_update_performance_atomic_on_failure (db : DB) (a : Args) :
    (a.performance_score = none → a.quarterly_rating = none → a.bonus = none →
      updateH db a =
        { content := .ok [mkText "更新するフィールドが指定されていません"],
          db := db,
          sqlCount := 0 }) ∧
    (db.rows.all (fun e => !(idEq a.employee_id e)) = true →
      updateH db a =
        if a.performance_score.isSome || truthyS a.quarterly_rating || a.bonus.isSome then
          { content := .ok [mkText ("ID " ++ optNumStr a.employee_id ++
              " の社員が見つかりません")],
            db := db,
            sqlCount := 1 }
        else
          { content := .ok [mkText "更新するフィールドが指定されていません"],
            db := db,
            sqlCount := 0 }) := by
  constructor
  · intro h1 h2 h3
    simp [updateH, h1, h2, h3, truthyS]
  · intro h
    have hall : ∀ e ∈ db.rows, idEq a.employee_id e = false := by
      intro e he
      have := List.all_eq_true.mp h e he
      simpa using this
    have hmap : db.rows.map
        (fun e => if idEq a.employee_id e then applyUpdates a e else e) = db.rows := by
      have : db.rows.map
          (fun e => if idEq a.employee_id e then applyUpdates a e else e) =
          db.rows.map id :=
        List.map_congr_left (fun e he => by simp [hall e he])
      simpa using this
    have hcount : db.rows.countP (fun e => idEq a.employee_id e) = 0 :=
      List.countP_eq_zero.mpr (fun e he => by simp [hall e he])
    unfold updateH
    dsimp only
    split
    · simp [hcount, hmap]
    · rfl

/-- C10 (witness): both failure branches on concrete inputs: an update call
supplying no field, and an update call whose `employee_id` (99) matches no
row of a one-row table. -/
theorem c10_witness :
    updateH (DB.mk [negScoreRow] 2) { employee_id := some 1 } =
      { content := .ok [mkText "更新するフィールドが指定されていません"],
        db := DB.mk [negScoreRow] 2,
        sqlCount := 0 } ∧
    updateH (DB.mk [negScoreRow] 2) { employee_id := some 99, bonus := some 500 } =
      { content := .ok [mkText ("ID " ++ optNumStr (some 99) ++
          " の社員が見つかりません")],
        db := DB.mk [negScoreRow] 2,
        sqlCount := 1 } :=
  ⟨(c10_update_performance_atomic_on_failure (DB.mk [negScoreRow] 2)
      { employee_id := some 1 }).1 rfl rfl rfl,
    (c10_update_performance_atomic_on_failure (DB.mk [negScoreRow] 2)
      { employee_id := some 99, bonus := some 500 }).2 (by decide)⟩

/-- An `add_employee` arguments object with all seven required fields present. -/
def mkAddArgs (nm dept lvl : String) (sc : Rat) (rt : String) (bo : Rat)
    (hd : String) (mid : Option Rat) : Args :=
  { name := some nm, department := some dept, level := some lvl,
    performance_score := some sc, quarterly_rating := some rt,
    bonus := some bo, hire_date := some hd, manager_id := mid }

/-- The row such an `add_employee` call inserts. -/
def insertedRow (db : DB) (nm dept lvl : String) (sc : Rat) (rt : String)
    (bo : Rat) (hd : String) (mid : Option Rat) : Employee :=
  { id := db.nextId, name := nm, department := dept, level := lvl,
    performance_score := sc, quarterly_rating := rt, bonus := bo,
    hire_date := hd, manager_id := jsOrNull mid }

/-- C4: CRUD round-trip: a schema-valid `add_employee` call appends exactly
the given row under the reported AUTOINCREMENT id, and a subsequent
`query_employees` call filtering on that department, that level and a nonzero
`min_performance` at most the score returns a listing containing that exact
row (and its formatted entry). -/
theorem c4_add_then_query_roundtrip (c : String) (db : DB)
    (nm dept lvl rt hd : String) (sc bo m : Rat) (mid : Option Rat)
    (hv : addValid (mkAddArgs nm dept lvl sc rt bo hd mid) = true)
    (hm : m ≠ 0) (_hs : sc ≠ 0) (hms : m ≤ sc) :
    (empCallTool c db "add_employee" (some (mkAddArgs nm dept lvl sc rt bo hd mid))).content =
      .ok [mkText ("社員 " ++ nm ++ " を正常に追加しました。ID: " ++ toString db.nextId)] ∧
    (empCallTool c db "add_employee" (some (mkAddArgs nm dept lvl sc rt bo hd mid))).db =
      DB.mk (db.rows ++ [insertedRow db nm dept lvl sc rt bo hd mid]) (db.nextId + 1) ∧
    insertedRow db nm dept lvl sc rt bo hd mid ∈
      queryRows
        (empCallTool c db "add_employee" (some (mkAddArgs nm dept lvl sc rt bo hd mid))).db
        { department := some dept, level := some lvl, min_performance := some m } ∧
    formatQueryRow (insertedRow db nm dept lvl sc rt bo hd mid) ∈
      (queryRows
        (empCallTool c db "add_employee" (some (mkAddArgs nm dept lvl sc rt bo hd mid))).db
        { department := some dept, level := some lvl, min_performance := some m }).map
        formatQueryRow := by
  have hres : empCallTool c db "add_employee" (some (mkAddArgs nm dept lvl sc rt bo hd mid)) =
      { content := .ok [mkText ("社員 " ++ nm ++ " を正常に追加しました。ID: " ++
          toString db.nextId)],
        db := DB.mk (db.rows ++ [insertedRow db nm dept lvl sc rt bo hd mid]) (db.nextId + 1),
        sqlCount := 1 } := by
    rw [empCallTool_add, if_pos hv]
    rfl
  have hfilt : queryFilter
      { department := some dept, level := some lvl, min_performance := some m }
      (insertedRow db nm dept lvl sc rt bo hd mid) = true := by
    simp [queryFilter, truthyS, truthyN, insertedRow, hm, hms]
  have hmem3 : insertedRow db nm dept lvl sc rt bo hd mid ∈
      queryRows (DB.mk (db.rows ++ [insertedRow db nm dept lvl sc rt bo hd mid])
        (db.nextId + 1))
        { department := some dept, level := some lvl, min_performance := some m } := by
    simp [queryRows, sortByPerfDesc, mem_sortLe, List.mem_filter, hfilt]
  refine ⟨?_, ?_, ?_, ?_⟩
  · rw [hres]
  · rw [hres]
  · rw [hres]
    exact hmem3
  · rw [hres]
    exact List.mem_map_of_mem formatQueryRow hmem3

/-- C4 (witness): the round-trip on the empty table with a concrete valid new
employee (score 3) queried back with `min_performance = 1`. -/
theorem c4_witness :
    addValid (mkAddArgs "新人" "技術部" "P4" 3 "B" 1000 "2024-05-01" none) = true ∧
    (1 : Rat) ≠ 0 ∧
    (3 : Rat) ≠ 0 ∧
    (1 : Rat) ≤ 3 ∧
    ((empCallTool "2024-10-11" (DB.mk [] 1) "add_employee"
        (some (mkAddArgs "新人" "技術部" "P4" 3 "B" 1000 "2024-05-01" none))).content =
      .ok [mkText ("社員 " ++ "新人" ++ " を正常に追加しました。ID: " ++
        toString (DB.mk [] 1).nextId)] ∧
    (empCallTool "2024-10-11" (DB.mk [] 1) "add_employee"
        (some (mkAddArgs "新人" "技術部" "P4" 3 "B" 1000 "2024-05-01" none))).db =
      DB.mk ((DB.mk [] 1).rows ++
        [insertedRow (DB.mk [] 1) "新人" "技術部" "P4" 3 "B" 1000 "2024-05-01" none])
        ((DB.mk [] 1).nextId + 1) ∧
    insertedRow (DB.mk [] 1) "新人" "技術部" "P4" 3 "B" 1000 "2024-05-01" none ∈
      queryRows
        (empCallTool "2024-10-11" (DB.mk [] 1) "add_employee"
          (some (mkAddArgs "新人" "技術部" "P4" 3 "B" 1000 "2024-05-01" none))).db
        { department := some "技術部", level := some "P4", min_performance := some 1 } ∧
    formatQueryRow
        (insertedRow (DB.mk [] 1) "新人" "技術部" "P4" 3 "B" 1000 "2024-05-01" none) ∈
      (queryRows
        (empCallTool "2024-10-11" (DB.mk [] 1) "add_employee"
          (some (mkAddArgs "新人" "技術部" "P4" 3 "B" 1000 "2024-05-01" none))).db
        { department := some "技術部", level := some "P4",
          min_performance := some 1 }).map formatQueryRow) :=
  ⟨by decide, by decide, by decide, by decide,
    c4_add_then_query_roundtrip "2024-10-11" (DB.mk [] 1) "新人" "技術部" "P4" "B"
      "2024-05-01" 3 1000 1 none (by decide) (by decide) (by decide) (by decide)⟩

/-- C8 (amended): on every table whose stored `hire_date` values are all
calendar-valid `YYYY-MM-DD` strings, each of the six tools returns the same
result in the `McpServer` implementation of `src/employee.ts` as in the raw
`Server` implementation of `src/screenshoot.ts`, for every arguments object
that is valid under the zod schemas (the two `promotion_candidates` WHERE
clauses coincide exactly on such dates). -/
theorem c8_amended_implementations_agree_on_valid_dates (c : String) (db : DB)
    (name : String) (a : Args)
    (hdates : db.rows.all (fun e => isSqlDate e.hire_date) = true)
    (hv : empArgsValid name a = true) :
    empCallTool c db name (some a) = scrCallTool c db name (some a) := by
  have hpf : ∀ e ∈ db.rows, promoFilterEmp c e = promoFilterScr c e := by
    intro e he
    have hd : isSqlDate e.hire_date = true := by
      have := List.all_eq_true.mp hdates e he
      simpa using this
    simp [promoFilterEmp, promoFilterScr, sqliteDate, hd]
  have hpromo : promotionH promoFilterEmp c db a = promotionH promoFilterScr c db a := by
    unfold promotionH
    dsimp only
    split
    · rw [List.filter_congr (fun e he => by rw [hpf e he])]
    · rw [List.filter_congr hpf]
  unfold empCallTool scrCallTool
  dsimp only
  rw [if_pos hv]
  split_ifs with h1 h2 h3 h4 h5 h6 <;>
    first
      | rfl
      | exact hpromo
      | simp [empArgsValid, h1, h2, h3, h4, h5, h6] at hv

/-- A promotion-eligible row with a calendar-valid hire date. -/
def goodDateRow : Employee :=
  { id := 1, name := "田中", department := "技術部", level := "M2",
    performance_score := 4.8, quarterly_rating := "A+", bonus := 50000,
    hire_date := "2020-01-15", manager_id := none }

/-- C8 (witness): the amended equivalence at a concrete one-row table with a
valid hire date, on a `promotion_candidates` call. -/
theorem c8_witness :
    (DB.mk [goodDateRow] 2).rows.all (fun e => isSqlDate e.hire_date) = true ∧
    empArgsValid "promotion_candidates" {} = true ∧
    empCallTool "2024-10-11" (DB.mk [goodDateRow] 2) "promotion_candidates" (some {}) =
      scrCallTool "2024-10-11" (DB.mk [goodDateRow] 2) "promotion_candidates" (some {}) :=
  ⟨by decide, by decide,
    c8_amended_implementations_agree_on_valid_dates "2024-10-11" (DB.mk [goodDateRow] 2)
      "promotion_candidates" {} (by decide) (by decide)⟩

/-- A promotion-eligible row whose hire_date is a string SQLite's DATE cannot
parse, reachable through `add_employee` (zod only requires a string). -/
def badDateRow : Employee :=
  { id := 1, name := "古参", department := "技術部", level := "P7",
    performance_score := 4, quarterly_rating := "A", bonus := 100,
    hire_date := "20 Jan 2010", manager_id := none }

/-- C8 (counterexample): with the stored hire date "20 Jan 2010" the two
implementations disagree on a zod-valid `promotion_candidates` call:
`src/employee.ts` compares the raw TEXT ("20 Jan 2010" sorts before
"2024-10-11") and lists the employee, while `src/screenshoot.ts` applies
`DATE(hire_date)`, gets NULL and drops the row. -/
theorem c8_counterexample_malformed_hire_date :
    empArgsValid "promotion_candidates" {} = true ∧
    empCallTool "2024-10-11" (DB.mk [badDateRow] 2) "promotion_candidates" (some {}) ≠
      scrCallTool "2024-10-11" (DB.mk [badDateRow] 2) "promotion_candidates" (some {}) := by
  constructor
  · decide
  · decide
